import Mathlib

/-!
Shallow embedding of the tcpraw package (src/tcp.go).

The package hijacks an established TCP connection: a kernel handshake
reserves the flow, a pcap capture loop (`receiver`) tracks the peer's
sequence state and feeds a payload channel, and `WriteTo` forges raw
TCP segments using the tracked counters.

Modelling conventions:
- bytes are `Nat`; machine `uint32` arithmetic is `Nat` arithmetic with
  an explicit `% 2 ^ 32` where the code wraps;
- the buffered Go channel `chPacket` is a FIFO list of payloads; a
  channel receive on the empty channel blocks, modelled as `none`;
- the outcomes of the two black-box effectful calls in `WriteTo`
  (`gopacket.SerializeLayers` and `handle.WritePacketData`) are inputs
  (`WriteEnv`); the code discards the former's error (src/tcp.go:227)
  and checks only the latter (src/tcp.go:228);
- deadlines are instants on an integer clock ("now" is 0, a past
  deadline is negative); `SetDeadline` and friends store them on the
  raw IP socket exactly as the code does, and the read/write paths are
  modelled from what the code actually consults.
-/

namespace Tcpraw

/-- A byte, as a natural number. -/
abbrev Byte := Nat

/-- A TCP endpoint: IPv4 address (as a 32-bit number) and port. -/
structure TCPAddr where
  ip : Nat
  port : Nat
  deriving DecidableEq

/-- An opaque `net.Addr` argument, as passed to `WriteTo`. -/
structure NetAddr where
  s : String
  deriving DecidableEq

/-- The fields of a `layers.Ethernet` link layer used by the code. -/
structure Ethernet where
  EthernetType : Nat
  SrcMAC : List Nat
  DstMAC : List Nat
  deriving DecidableEq

/-- The fields of a `layers.Loopback` link layer used by the code. -/
structure Loopback where
  Family : Nat
  deriving DecidableEq

/-- The serializable link-layer template stored in `conn.linkLayer`. -/
inductive LinkLayer where
  | eth (e : Ethernet)
  | loop (l : Loopback)
  deriving DecidableEq

/-- A captured frame as the receiver loop sees it: the TCP transport
layer (the BPF filter guarantees one is present), and the optional
link layers `packet.Layer` may find. -/
structure Packet where
  tcpSeq : Nat
  tcpAck : Nat
  PSH : Bool
  payload : List Byte
  ethLayer : Option Ethernet
  loopLayer : Option Loopback
  deriving DecidableEq

/-- The state of a `TCPConn` (src/tcp.go:19-34), with the endpoints the
code reads back from `tcpconn`, the `sync.Once` latch of the receiver
goroutine, the deadline registers of the raw IP socket, and the closed
flags of the three underlying handles. -/
structure TCPConn where
  localAddr : TCPAddr
  remoteAddr : TCPAddr
  seqnum : Nat
  acknum : Nat
  linkLayer : Option LinkLayer
  onceDone : Bool
  chPacket : List (List Byte)
  ipReadDeadline : Option Int
  ipWriteDeadline : Option Int
  tcpClosed : Bool
  ipClosed : Bool
  handleClosed : Bool
  deriving DecidableEq

/-- The link-layer template derivation inside `once.Do`
(src/tcp.go:138-151): an Ethernet layer yields a template with source
and destination hardware addresses swapped; otherwise a loopback layer
yields a family-only template; otherwise `conn.linkLayer` is left as it
was. -/
def deriveLinkLayer (pkt : Packet) (prev : Option LinkLayer) : Option LinkLayer :=
  match pkt.ethLayer with
  | some e =>
      some (LinkLayer.eth { EthernetType := e.EthernetType, SrcMAC := e.DstMAC, DstMAC := e.SrcMAC })
  | none =>
      match pkt.loopLayer with
      | some l => some (LinkLayer.loop { Family := l.Family })
      | none => prev

/-- One iteration of the receiver loop (src/tcp.go:134-156): store the
segment's Seq into `acknum` and its Ack into `seqnum`, run the one-shot
link-layer derivation on the first packet only, and enqueue the payload
when the push flag is set. -/
def receiverStep (conn : TCPConn) (pkt : Packet) : TCPConn :=
  let conn1 := { conn with acknum := pkt.tcpSeq, seqnum := pkt.tcpAck }
  let conn2 :=
    if conn1.onceDone then conn1
    else { conn1 with linkLayer := deriveLinkLayer pkt conn1.linkLayer, onceDone := true }
  if pkt.PSH then { conn2 with chPacket := conn2.chPacket ++ [pkt.payload] } else conn2

/-- The receiver loop run over a sequence of captured packets in
arrival order. -/
def receiverRun (conn : TCPConn) (pkts : List Packet) : TCPConn :=
  pkts.foldl receiverStep conn

/-- Go's `copy(dst, src)`: copies `min |dst| |src|` bytes into the
front of `dst` and returns that count together with the resulting
buffer contents. -/
def goCopy (dst src : List Byte) : Nat × List Byte :=
  let n := min dst.length src.length
  (n, src.take n ++ dst.drop n)

/-- Result of a `ReadFrom` call that returned: byte count, the address
reported, the error, the caller's buffer afterwards, and the new
connection state. -/
structure ReadResult where
  n : Nat
  addr : TCPAddr
  err : Option String
  buf : List Byte
  conn : TCPConn
  deriving DecidableEq

/-- `ReadFrom` (src/tcp.go:173-177): receive one payload from
`chPacket` (blocking — `none` — while the channel is empty), copy it
into `p` with Go `copy`, and return the count, `tcpconn.RemoteAddr()`
and a nil error. -/
def ReadFrom (conn : TCPConn) (p : List Byte) : Option ReadResult :=
  match conn.chPacket with
  | [] => none
  | pkt :: rest =>
      let r := goCopy p pkt
      some { n := r.1, addr := conn.remoteAddr, err := none, buf := r.2,
             conn := { conn with chPacket := rest } }

/-- The `layers.IPv4` header `WriteTo` constructs (src/tcp.go:191-199). -/
structure IPv4 where
  SrcIP : Nat
  DstIP : Nat
  Protocol : Nat
  Version : Nat
  Id : Nat
  DontFragment : Bool
  TTL : Nat
  deriving DecidableEq

/-- The `layers.TCP` header `WriteTo` constructs (src/tcp.go:201-223). -/
structure TCPHeader where
  SrcPort : Nat
  DstPort : Nat
  Window : Nat
  Ack : Nat
  Seq : Nat
  PSH : Bool
  ACK : Bool
  deriving DecidableEq

/-- The layer chain handed to `gopacket.SerializeLayers`
(src/tcp.go:227): link template, IPv4 header, TCP header, payload. -/
structure Frame where
  link : Option LinkLayer
  network : IPv4
  transport : TCPHeader
  payload : List Byte
  deriving DecidableEq

/-- Outcomes of the two effectful black-box calls inside `WriteTo`:
the error result of `gopacket.SerializeLayers` and the error result of
`handle.WritePacketData`. -/
structure WriteEnv where
  serErr : Option String
  injectErr : Option String
  deriving DecidableEq

/-- Result of a `WriteTo` call: the frame it constructed, the byte
count, the error, and the new connection state. -/
structure WriteResult where
  frame : Frame
  n : Nat
  err : Option String
  conn : TCPConn
  deriving DecidableEq

/-- The frame `WriteTo` assembles from the current connection state
(src/tcp.go:185-227): IPv4 with the local/remote endpoint of `tcpconn`,
protocol TCP, version 4, Id 1234, don't-fragment, TTL 0x40; TCP with
the flow's ports, window 12580, current `acknum`/`seqnum`, PSH and ACK
set; the payload; all under the captured link template. -/
def buildFrame (conn : TCPConn) (p : List Byte) : Frame :=
  { link := conn.linkLayer
    network :=
      { SrcIP := conn.localAddr.ip, DstIP := conn.remoteAddr.ip,
        Protocol := 6, Version := 4, Id := 1234, DontFragment := true, TTL := 0x40 }
    transport :=
      { SrcPort := conn.localAddr.port, DstPort := conn.remoteAddr.port,
        Window := 12580, Ack := conn.acknum, Seq := conn.seqnum,
        PSH := true, ACK := true }
    payload := p }

/-- `WriteTo` (src/tcp.go:184-234): build the frame, serialize it
(the error return of `SerializeLayers` is discarded by the code, so
`env.serErr` is never consulted), inject it with `WritePacketData`; on
injection error return `(0, err)` with the state untouched, otherwise
advance `seqnum` by the payload length with 32-bit wrap-around and
return `(len p, nil)`. The `addr` argument is never used in the body. -/
def WriteTo (conn : TCPConn) (p : List Byte) (addr : NetAddr) (env : WriteEnv) : WriteResult :=
  let frame := buildFrame conn p
  match env.injectErr with
  | some e => { frame := frame, n := 0, err := some e, conn := conn }
  | none =>
      { frame := frame, n := p.length, err := none,
        conn := { conn with seqnum := (conn.seqnum + p.length) % 2 ^ 32 } }

/-- `Close` (src/tcp.go:238-241): closes `tcpconn` and `ipconn`; the
pcap handle and the payload channel are not touched. -/
def Close (conn : TCPConn) : TCPConn :=
  { conn with tcpClosed := true, ipClosed := true }

/-- `SetDeadline` (src/tcp.go:263): delegates to
`ipconn.SetDeadline`, which sets both directions' deadline registers
on the raw IP socket. -/
def SetDeadline (conn : TCPConn) (t : Int) : TCPConn :=
  { conn with ipReadDeadline := some t, ipWriteDeadline := some t }

/-- `SetReadDeadline` (src/tcp.go:268): delegates to
`ipconn.SetReadDeadline`. -/
def SetReadDeadline (conn : TCPConn) (t : Int) : TCPConn :=
  { conn with ipReadDeadline := some t }

/-- `SetWriteDeadline` (src/tcp.go:275): delegates to
`ipconn.SetWriteDeadline`. -/
def SetWriteDeadline (conn : TCPConn) (t : Int) : TCPConn :=
  { conn with ipWriteDeadline := some t }

/-- A `pcap.InterfaceAddress`: the IP configured on an interface. -/
structure PcapAddress where
  IP : Nat
  deriving DecidableEq

/-- A `pcap.Interface` as returned by `FindAllDevs`. -/
structure PcapInterface where
  Name : String
  Addresses : List PcapAddress
  deriving DecidableEq

/-- The interface-selection loop in `Dial` (src/tcp.go:57-64): scan
every interface and every configured address, remembering the name of
an interface whenever one of its addresses equals the local IP the
throwaway UDP dial resolved (no early exit, so the last match wins). -/
def findIfaceName (ifaces : List PcapInterface) (localIP : Nat) : String :=
  ifaces.foldl
    (fun acc iface =>
      iface.Addresses.foldl (fun acc2 a => if a.IP = localIP then iface.Name else acc2) acc)
    ""

/-- The interface-resolution step of `Dial` (src/tcp.go:57-67): an
empty result name is the fatal resolution error; `Dial` does not
retry. -/
def dialSelectIface (ifaces : List PcapInterface) (localIP : Nat) : Except String String :=
  let name := findIfaceName ifaces localIP
  if name = "" then Except.error ("cannot find correct interface") else Except.ok name

/-- A concrete established connection state used by witnesses. -/
def conn0 : TCPConn :=
  { localAddr := { ip := 0x0A000001, port := 40000 }
    remoteAddr := { ip := 0x0A000002, port := 80 }
    seqnum := 1000, acknum := 2000, linkLayer := none, onceDone := false
    chPacket := [], ipReadDeadline := none, ipWriteDeadline := none
    tcpClosed := false, ipClosed := false, handleClosed := false }

/-- Like `conn0` but with two payloads pending and the receiver's
one-shot latch already fired. -/
def conn1 : TCPConn :=
  { conn0 with chPacket := [[1, 2, 3], [4]], onceDone := true }

/-- A concrete opaque address argument used by witnesses. -/
def addr0 : NetAddr := { s := "10.0.0.2:80" }

/-- A second, different opaque address argument. -/
def addr1 : NetAddr := { s := "203.0.113.9:443" }

/-- A `WriteEnv` in which both black-box calls succeed. -/
def envOk : WriteEnv := { serErr := none, injectErr := none }

end Tcpraw

namespace Tcpraw

/-- Claim C1: a successful `WriteTo` of payload `p` returns exactly
`p.length` bytes, advances `seqnum` by `p.length` modulo `2 ^ 32`,
and leaves `acknum` unchanged. -/
theorem writeTo_success_advances_seq (conn : TCPConn) (p : List Byte)
    (addr : NetAddr) (env : WriteEnv) (h : env.injectErr = none) :
    (WriteTo conn p addr env).n = p.length ∧
    (WriteTo conn p addr env).err = none ∧
    (WriteTo conn p addr env).conn.seqnum = (conn.seqnum + p.length) % 2 ^ 32 ∧
    (WriteTo conn p addr env).conn.acknum = conn.acknum := by
  simp [WriteTo, h]

/-- Witness for C1 at a concrete connection and payload. -/
theorem writeTo_success_advances_seq_witness :
    (WriteTo conn0 [9, 8] addr0 envOk).n = ([9, 8] : List Byte).length ∧
    (WriteTo conn0 [9, 8] addr0 envOk).err = none ∧
    (WriteTo conn0 [9, 8] addr0 envOk).conn.seqnum
      = (conn0.seqnum + ([9, 8] : List Byte).length) % 2 ^ 32 ∧
    (WriteTo conn0 [9, 8] addr0 envOk).conn.acknum = conn0.acknum :=
  writeTo_success_advances_seq conn0 [9, 8] addr0 envOk rfl

/-- Each receiver iteration stores the segment's Seq into `acknum`. -/
lemma receiverStep_acknum (conn : TCPConn) (pkt : Packet) :
    (receiverStep conn pkt).acknum = pkt.tcpSeq := by
  simp only [receiverStep]
  split <;> split <;> rfl

/-- Each receiver iteration stores the segment's Ack into `seqnum`. -/
lemma receiverStep_seqnum (conn : TCPConn) (pkt : Packet) :
    (receiverStep conn pkt).seqnum = pkt.tcpAck := by
  simp only [receiverStep]
  split <;> split <;> rfl

/-- Each receiver iteration leaves the one-shot latch fired. -/
lemma receiverStep_onceDone (conn : TCPConn) (pkt : Packet) :
    (receiverStep conn pkt).onceDone = true := by
  simp only [receiverStep]
  split <;> split <;> simp_all

/-- Once the one-shot latch has fired, receiver iterations leave the
link-layer template alone. -/
lemma receiverStep_linkLayer_of_done (conn : TCPConn) (pkt : Packet)
    (h : conn.onceDone = true) :
    (receiverStep conn pkt).linkLayer = conn.linkLayer := by
  simp only [receiverStep, h, if_true]
  split <;> rfl

/-- On the first packet the receiver stores exactly the derived
link-layer template. -/
lemma receiverStep_linkLayer_of_first (conn : TCPConn) (pkt : Packet)
    (h : conn.onceDone = false) :
    (receiverStep conn pkt).linkLayer = deriveLinkLayer pkt conn.linkLayer := by
  simp only [receiverStep, h, Bool.false_eq_true, if_false]
  split <;> rfl

/-- Receiver iterations only ever append to the payload channel, and
only for push-flagged segments. -/
lemma receiverStep_chPacket (conn : TCPConn) (pkt : Packet) :
    (receiverStep conn pkt).chPacket =
      if pkt.PSH then conn.chPacket ++ [pkt.payload] else conn.chPacket := by
  simp only [receiverStep]
  split <;> split <;> rfl

/-- Unfolding one step of the receiver run. -/
lemma receiverRun_cons (conn : TCPConn) (pkt : Packet) (pkts : List Packet) :
    receiverRun conn (pkt :: pkts) = receiverRun (receiverStep conn pkt) pkts := rfl

/-- Appending one packet to a receiver run. -/
lemma receiverRun_concat (conn : TCPConn) (pkts : List Packet) (pkt : Packet) :
    receiverRun conn (pkts ++ [pkt]) = receiverStep (receiverRun conn pkts) pkt := by
  simp [receiverRun, List.foldl_append]

/-- A receiver run with the latch fired preserves the link-layer
template and the latch. -/
lemma receiverRun_linkLayer_of_done (pkts : List Packet) (conn : TCPConn)
    (h : conn.onceDone = true) :
    (receiverRun conn pkts).linkLayer = conn.linkLayer ∧
    (receiverRun conn pkts).onceDone = true := by
  induction pkts generalizing conn with
  | nil => exact ⟨rfl, h⟩
  | cons pkt pkts ih =>
      rw [receiverRun_cons]
      have h1 := receiverStep_onceDone conn pkt
      have h2 := ih (receiverStep conn pkt) h1
      exact ⟨h2.1.trans (receiverStep_linkLayer_of_done conn pkt h), h2.2⟩

/-- Claim C2: for every captured segment, the dispatcher sets `acknum`
to the segment's Seq and `seqnum` to the segment's Ack, unconditionally
and in arrival order (last writer wins): after any run ending in
segment `pkt`, the counters are `pkt`'s fields. -/
theorem receiver_counters_last_writer_wins (conn : TCPConn)
    (pkts : List Packet) (pkt : Packet) :
    (receiverStep conn pkt).acknum = pkt.tcpSeq ∧
    (receiverStep conn pkt).seqnum = pkt.tcpAck ∧
    (receiverRun conn (pkts ++ [pkt])).acknum = pkt.tcpSeq ∧
    (receiverRun conn (pkts ++ [pkt])).seqnum = pkt.tcpAck := by
  refine ⟨receiverStep_acknum conn pkt, receiverStep_seqnum conn pkt, ?_, ?_⟩
  · rw [receiverRun_concat]; exact receiverStep_acknum _ pkt
  · rw [receiverRun_concat]; exact receiverStep_seqnum _ pkt

/-- Claim C3: the link-layer template is derived exactly once, from the
first captured frame only — Ethernet present: addresses swapped, same
type; loopback present (and no Ethernet): same family; neither: the
template stays unset — and no later frame changes it. -/
theorem linkLayer_from_first_frame_only (conn : TCPConn) (pkt : Packet)
    (pkts : List Packet) (h0 : conn.onceDone = false) (h1 : conn.linkLayer = none) :
    (∀ e, pkt.ethLayer = some e →
      (receiverStep conn pkt).linkLayer =
        some (LinkLayer.eth
          { EthernetType := e.EthernetType, SrcMAC := e.DstMAC, DstMAC := e.SrcMAC })) ∧
    (∀ l, pkt.ethLayer = none → pkt.loopLayer = some l →
      (receiverStep conn pkt).linkLayer = some (LinkLayer.loop { Family := l.Family })) ∧
    (pkt.ethLayer = none → pkt.loopLayer = none →
      (receiverStep conn pkt).linkLayer = none) ∧
    (receiverRun (receiverStep conn pkt) pkts).linkLayer =
      (receiverStep conn pkt).linkLayer := by
  have hstep := receiverStep_linkLayer_of_first conn pkt h0
  refine ⟨?_, ?_, ?_, ?_⟩
  · intro e he
    rw [hstep]
    simp [deriveLinkLayer, he]
  · intro l he hl
    rw [hstep]
    simp [deriveLinkLayer, he, hl]
  · intro he hl
    rw [hstep]
    simp [deriveLinkLayer, he, hl, h1]
  · exact (receiverRun_linkLayer_of_done pkts (receiverStep conn pkt)
      (receiverStep_onceDone conn pkt)).1

/-- Witness for C3: a fresh connection, a first frame with an Ethernet
envelope, and one later frame with a different envelope. -/
theorem linkLayer_from_first_frame_only_witness :
    (∀ e, (Packet.mk 5 6 false [] (some (Ethernet.mk 0x0800 [1] [2])) none).ethLayer = some e →
      (receiverStep conn0 (Packet.mk 5 6 false [] (some (Ethernet.mk 0x0800 [1] [2])) none)).linkLayer =
        some (LinkLayer.eth
          { EthernetType := e.EthernetType, SrcMAC := e.DstMAC, DstMAC := e.SrcMAC })) ∧
    (∀ l, (Packet.mk 5 6 false [] (some (Ethernet.mk 0x0800 [1] [2])) none).ethLayer = none →
      (Packet.mk 5 6 false [] (some (Ethernet.mk 0x0800 [1] [2])) none).loopLayer = some l →
      (receiverStep conn0 (Packet.mk 5 6 false [] (some (Ethernet.mk 0x0800 [1] [2])) none)).linkLayer =
        some (LinkLayer.loop { Family := l.Family })) ∧
    ((Packet.mk 5 6 false [] (some (Ethernet.mk 0x0800 [1] [2])) none).ethLayer = none →
      (Packet.mk 5 6 false [] (some (Ethernet.mk 0x0800 [1] [2])) none).loopLayer = none →
      (receiverStep conn0 (Packet.mk 5 6 false [] (some (Ethernet.mk 0x0800 [1] [2])) none)).linkLayer = none) ∧
    (receiverRun (receiverStep conn0 (Packet.mk 5 6 false [] (some (Ethernet.mk 0x0800 [1] [2])) none))
        [Packet.mk 7 8 true [3] none (some (Loopback.mk 2))]).linkLayer =
      (receiverStep conn0 (Packet.mk 5 6 false [] (some (Ethernet.mk 0x0800 [1] [2])) none)).linkLayer :=
  linkLayer_from_first_frame_only conn0
    (Packet.mk 5 6 false [] (some (Ethernet.mk 0x0800 [1] [2])) none)
    [Packet.mk 7 8 true [3] none (some (Loopback.mk 2))] rfl rfl

/-- A receiver run appends to the channel exactly the payloads of the
push-flagged packets, in capture order. -/
lemma receiverRun_chPacket (pkts : List Packet) (conn : TCPConn) :
    (receiverRun conn pkts).chPacket =
      conn.chPacket ++ (pkts.filter (fun q => q.PSH)).map (fun q => q.payload) := by
  induction pkts generalizing conn with
  | nil => simp [receiverRun]
  | cons pkt pkts ih =>
      rw [receiverRun_cons, ih, receiverStep_chPacket]
      by_cases h : pkt.PSH <;> simp [h]

/-- Claim C4: exactly the push-flagged captured segments have their
payloads enqueued, in capture order, and `ReadFrom` dequeues from the
front (FIFO): with the queue headed by `pkt`, a read returns `pkt`'s
bytes and leaves the tail. -/
theorem push_payloads_fifo (conn : TCPConn) (pkts : List Packet)
    (c : TCPConn) (p pkt : List Byte) (rest : List (List Byte))
    (h : c.chPacket = pkt :: rest) :
    (receiverRun conn pkts).chPacket =
      conn.chPacket ++ (pkts.filter (fun q => q.PSH)).map (fun q => q.payload) ∧
    ReadFrom c p =
      some { n := (goCopy p pkt).1, addr := c.remoteAddr, err := none,
             buf := (goCopy p pkt).2, conn := { c with chPacket := rest } } := by
  refine ⟨receiverRun_chPacket pkts conn, ?_⟩
  simp only [ReadFrom, h]

/-- Witness for C4: two captured segments, one push-flagged, then a
read of the head payload. -/
theorem push_payloads_fifo_witness :
    (receiverRun conn0
        [Packet.mk 5 6 true [1, 2, 3] none none, Packet.mk 7 8 false [9] none none]).chPacket =
      conn0.chPacket ++
        (([Packet.mk 5 6 true [1, 2, 3] none none,
           Packet.mk 7 8 false [9] none none].filter (fun q => q.PSH)).map (fun q => q.payload)) ∧
    ReadFrom conn1 [0, 0] =
      some { n := (goCopy [0, 0] [1, 2, 3]).1, addr := conn1.remoteAddr, err := none,
             buf := (goCopy [0, 0] [1, 2, 3]).2, conn := { conn1 with chPacket := [[4]] } } :=
  push_payloads_fifo conn0
    [Packet.mk 5 6 true [1, 2, 3] none none, Packet.mk 7 8 false [9] none none]
    conn1 [0, 0] [1, 2, 3] [[4]] rfl

/-- Counterexample to C5 as stated: with `SerializeLayers` failing and
`WritePacketData` succeeding, `WriteTo` reports no error, returns the
full byte count, and advances `seqnum` — the serialization failure is
not surfaced, because the code discards the error result of
`gopacket.SerializeLayers` (src/tcp.go:227). -/
theorem writeTo_serialize_error_ignored :
    (WriteTo conn0 [7] addr0 { serErr := some ("serialize failed"), injectErr := none }).err
      = none ∧
    (WriteTo conn0 [7] addr0 { serErr := some ("serialize failed"), injectErr := none }).n
      = 1 ∧
    (WriteTo conn0 [7] addr0 { serErr := some ("serialize failed"), injectErr := none }).conn.seqnum
      ≠ conn0.seqnum := by
  refine ⟨rfl, rfl, ?_⟩
  decide

/-- Claim C5 (amended): if the injection on the raw delivery path
fails, `WriteTo` surfaces that failure immediately, returns 0 bytes,
and leaves the connection state — `seqnum` included — unchanged; a
serialization failure alone is not surfaced, since its error result is
discarded. -/
theorem writeTo_inject_failure_all_or_nothing (conn : TCPConn) (p : List Byte)
    (addr : NetAddr) (env : WriteEnv) (e : String) (h : env.injectErr = some e) :
    (WriteTo conn p addr env).n = 0 ∧
    (WriteTo conn p addr env).err = some e ∧
    (WriteTo conn p addr env).conn = conn ∧
    (∀ env2 : WriteEnv, env2.injectErr = none → (WriteTo conn p addr env2).err = none) := by
  refine ⟨?_, ?_, ?_, ?_⟩
  · simp [WriteTo, h]
  · simp [WriteTo, h]
  · simp [WriteTo, h]
  · intro env2 h2
    simp [WriteTo, h2]

/-- Witness for the amended C5 at a concrete failing injection. -/
theorem writeTo_inject_failure_all_or_nothing_witness :
    (WriteTo conn0 [7] addr0 { serErr := none, injectErr := some ("send failed") }).n = 0 ∧
    (WriteTo conn0 [7] addr0 { serErr := none, injectErr := some ("send failed") }).err
      = some ("send failed") ∧
    (WriteTo conn0 [7] addr0 { serErr := none, injectErr := some ("send failed") }).conn
      = conn0 ∧
    (∀ env2 : WriteEnv, env2.injectErr = none →
      (WriteTo conn0 [7] addr0 env2).err = none) :=
  writeTo_inject_failure_all_or_nothing conn0 [7] addr0
    { serErr := none, injectErr := some ("send failed") } ("send failed") rfl

/-- Claim C6 (divergence witness at the failing input): after a past
deadline is installed via any of the three deadline setters, the next
`ReadFrom` on an empty channel still blocks (it does not fail with a
timeout error) and the next `WriteTo` still succeeds with the full
byte count: the deadline registers live on the raw IP socket, which
neither the channel receive in `ReadFrom` nor the pcap injection in
`WriteTo` consults. -/
theorem deadline_never_consulted (conn : TCPConn) (t : Int) (p buf : List Byte)
    (addr : NetAddr) (env : WriteEnv) (hq : conn.chPacket = [])
    (hpast : t < 0) (hinj : env.injectErr = none) :
    ReadFrom (SetDeadline conn t) buf = none ∧
    ReadFrom (SetReadDeadline conn t) buf = none ∧
    (WriteTo (SetDeadline conn t) p addr env).err = none ∧
    (WriteTo (SetDeadline conn t) p addr env).n = p.length ∧
    (WriteTo (SetWriteDeadline conn t) p addr env).err = none ∧
    (WriteTo (SetWriteDeadline conn t) p addr env).n = p.length := by
  refine ⟨?_, ?_, ?_, ?_, ?_, ?_⟩
  · simp [ReadFrom, SetDeadline, hq]
  · simp [ReadFrom, SetReadDeadline, hq]
  · simp [WriteTo, hinj]
  · simp [WriteTo, hinj]
  · simp [WriteTo, hinj]
  · simp [WriteTo, hinj]

/-- Witness for C6's divergence at a concrete connection with an empty
channel and the past deadline -5. -/
theorem deadline_never_consulted_witness :
    ReadFrom (SetDeadline conn0 (-5)) [0] = none ∧
    ReadFrom (SetReadDeadline conn0 (-5)) [0] = none ∧
    (WriteTo (SetDeadline conn0 (-5)) [7] addr0 envOk).err = none ∧
    (WriteTo (SetDeadline conn0 (-5)) [7] addr0 envOk).n = ([7] : List Byte).length ∧
    (WriteTo (SetWriteDeadline conn0 (-5)) [7] addr0 envOk).err = none ∧
    (WriteTo (SetWriteDeadline conn0 (-5)) [7] addr0 envOk).n = ([7] : List Byte).length :=
  deadline_never_consulted conn0 (-5) [7] [0] addr0 envOk rfl (by decide) rfl

/-- Claim C7 (divergence witness): `Close` does close both the kernel
TCP socket and the raw IP socket, but it leaves the pcap handle open
and the payload channel untouched, so a `ReadFrom` blocked on the
empty channel stays blocked after `Close` instead of returning an
error. -/
theorem close_does_not_unblock_read (conn : TCPConn) (buf : List Byte)
    (hq : conn.chPacket = []) :
    (Close conn).tcpClosed = true ∧
    (Close conn).ipClosed = true ∧
    (Close conn).handleClosed = conn.handleClosed ∧
    (Close conn).chPacket = conn.chPacket ∧
    ReadFrom (Close conn) buf = none := by
  refine ⟨rfl, rfl, rfl, rfl, ?_⟩
  simp [ReadFrom, Close, hq]

/-- Witness for C7's divergence: closing `conn0` (empty channel) and
then reading. -/
theorem close_does_not_unblock_read_witness :
    (Close conn0).tcpClosed = true ∧
    (Close conn0).ipClosed = true ∧
    (Close conn0).handleClosed = conn0.handleClosed ∧
    (Close conn0).chPacket = conn0.chPacket ∧
    ReadFrom (Close conn0) [0] = none :=
  close_does_not_unblock_read conn0 [0] rfl

/-- Claim C9: with a payload at the head of the queue, `ReadFrom`
returns `min |p| |payload|` bytes, the first `n` payload bytes copied
into the front of `p` (excess payload silently discarded), the remote
endpoint as the address, and no error — and a `ReadFrom` that returns
never reports an error. -/
theorem readFrom_copy_semantics (c : TCPConn) (p pkt : List Byte)
    (rest : List (List Byte)) (h : c.chPacket = pkt :: rest) :
    ReadFrom c p =
      some { n := min p.length pkt.length, addr := c.remoteAddr, err := none,
             buf := pkt.take (min p.length pkt.length) ++ p.drop (min p.length pkt.length),
             conn := { c with chPacket := rest } } ∧
    (∀ c2 : TCPConn, ∀ p2 : List Byte, ∀ r : ReadResult,
      ReadFrom c2 p2 = some r → r.err = none ∧ r.addr = c2.remoteAddr) := by
  constructor
  · simp only [ReadFrom, h, goCopy]
  · intro c2 p2 r hr
    unfold ReadFrom at hr
    rcases h2 : c2.chPacket with _ | ⟨q, qs⟩ <;> rw [h2] at hr
    · exact absurd hr (by simp)
    · simp only [Option.some.injEq] at hr
      rw [← hr]
      exact ⟨rfl, rfl⟩

/-- Witness for C9: reading a 3-byte payload into a 2-byte buffer. -/
theorem readFrom_copy_semantics_witness :
    ReadFrom conn1 [0, 0] =
      some { n := min ([0, 0] : List Byte).length ([1, 2, 3] : List Byte).length,
             addr := conn1.remoteAddr, err := none,
             buf := ([1, 2, 3] : List Byte).take (min ([0, 0] : List Byte).length ([1, 2, 3] : List Byte).length)
               ++ ([0, 0] : List Byte).drop (min ([0, 0] : List Byte).length ([1, 2, 3] : List Byte).length),
             conn := { conn1 with chPacket := [[4]] } } ∧
    (∀ c2 : TCPConn, ∀ p2 : List Byte, ∀ r : ReadResult,
      ReadFrom c2 p2 = some r → r.err = none ∧ r.addr = c2.remoteAddr) :=
  readFrom_copy_semantics conn1 [0, 0] [1, 2, 3] [[4]] rfl

/-- Claim C10: the `addr` argument of `WriteTo` has no effect — the
whole result (constructed frame, byte count, error, new state) is
identical for any two addresses, and the frame's destination IP and
port always come from the connection's established remote endpoint. -/
theorem writeTo_addr_has_no_effect (conn : TCPConn) (p : List Byte)
    (a1 a2 : NetAddr) (env : WriteEnv) :
    WriteTo conn p a1 env = WriteTo conn p a2 env ∧
    (WriteTo conn p a1 env).frame.network.DstIP = conn.remoteAddr.ip ∧
    (WriteTo conn p a1 env).frame.transport.DstPort = conn.remoteAddr.port := by
  refine ⟨rfl, ?_, ?_⟩ <;>
    · unfold WriteTo
      rcases env.injectErr with _ | e <;> rfl

/-- The inner address scan of the `Dial` loop: it yields the
interface's name when any configured address matches, and keeps the
accumulator otherwise. -/
lemma findIface_inner (ip : Nat) (nm : String) (l : List PcapAddress) (acc : String) :
    l.foldl (fun acc2 a => if a.IP = ip then nm else acc2) acc =
      if ∃ a ∈ l, a.IP = ip then nm else acc := by
  induction l generalizing acc with
  | nil => simp
  | cons a l ih =>
      rw [List.foldl_cons, ih]
      by_cases ha : a.IP = ip <;> by_cases hl : ∃ b ∈ l, b.IP = ip <;>
        simp [ha, hl]

/-- The outer interface scan with accumulator: if no interface has a
matching address, the accumulator is returned unchanged. -/
lemma findIface_outer_no_match (ip : Nat) (ifaces : List PcapInterface) (acc : String)
    (h : ∀ i ∈ ifaces, ∀ a ∈ i.Addresses, a.IP ≠ ip) :
    ifaces.foldl
      (fun acc2 iface =>
        iface.Addresses.foldl (fun acc3 a => if a.IP = ip then iface.Name else acc3) acc2)
      acc = acc := by
  induction ifaces generalizing acc with
  | nil => rfl
  | cons i l ih =>
      rw [List.foldl_cons, findIface_inner]
      have hmem : ¬ ∃ a ∈ i.Addresses, a.IP = ip := by
        rintro ⟨a, ha, hip⟩
        exact h i (List.mem_cons_self i l) a ha hip
      rw [if_neg hmem]
      exact ih acc (fun j hj => h j (List.mem_cons_of_mem i hj))

/-- The outer interface scan only ever answers the accumulator or the
name of an interface one of whose addresses matches. -/
lemma findIface_outer_sound (ip : Nat) (ifaces : List PcapInterface) (acc nm : String)
    (h : ifaces.foldl
      (fun acc2 iface =>
        iface.Addresses.foldl (fun acc3 a => if a.IP = ip then iface.Name else acc3) acc2)
      acc = nm) :
    nm = acc ∨ ∃ i ∈ ifaces, i.Name = nm ∧ ∃ a ∈ i.Addresses, a.IP = ip := by
  induction ifaces generalizing acc with
  | nil => exact Or.inl h.symm
  | cons i l ih =>
      rw [List.foldl_cons, findIface_inner] at h
      by_cases hi : ∃ a ∈ i.Addresses, a.IP = ip
      · rw [if_pos hi] at h
        rcases ih i.Name h with h1 | ⟨j, hj, hjn, hja⟩
        · exact Or.inr ⟨i, List.mem_cons_self i l, h1.symm, hi⟩
        · exact Or.inr ⟨j, List.mem_cons_of_mem i hj, hjn, hja⟩
      · rw [if_neg hi] at h
        rcases ih acc h with h1 | ⟨j, hj, hjn, hja⟩
        · exact Or.inl h1
        · exact Or.inr ⟨j, List.mem_cons_of_mem i hj, hjn, hja⟩

/-- Claim C8: the resolver selects an interface whose configured
address set contains the locally resolved IP; in the two-interface
scenario with only B matching it selects B even though A is listed
first; and with no matching interface, `Dial` fails with the
resolution error and does not retry. -/
theorem dial_selects_matching_iface (A B : PcapInterface) (ip : Nat)
    (ifaces : List PcapInterface)
    (hA : ∀ a ∈ A.Addresses, a.IP ≠ ip)
    (hB : ∃ a ∈ B.Addresses, a.IP = ip)
    (hBname : B.Name ≠ "") :
    dialSelectIface [A, B] ip = Except.ok B.Name ∧
    (∀ nm, dialSelectIface ifaces ip = Except.ok nm →
      ∃ i ∈ ifaces, i.Name = nm ∧ ∃ a ∈ i.Addresses, a.IP = ip) ∧
    ((∀ i ∈ ifaces, ∀ a ∈ i.Addresses, a.IP ≠ ip) →
      dialSelectIface ifaces ip = Except.error ("cannot find correct interface")) := by
  have hAmem : ¬ ∃ a ∈ A.Addresses, a.IP = ip := by
    rintro ⟨a, ha, hip⟩
    exact hA a ha hip
  refine ⟨?_, ?_, ?_⟩
  · have hname : findIfaceName [A, B] ip = B.Name := by
      unfold findIfaceName
      rw [List.foldl_cons, List.foldl_cons, List.foldl_nil,
        findIface_inner, findIface_inner, if_neg hAmem, if_pos hB]
    unfold dialSelectIface
    rw [hname, if_neg hBname]
  · intro nm hnm
    unfold dialSelectIface at hnm
    by_cases hempty : findIfaceName ifaces ip = ""
    · rw [hempty] at hnm
      simp at hnm
    · rw [if_neg hempty] at hnm
      simp only [Except.ok.injEq] at hnm
      rcases findIface_outer_sound ip ifaces "" nm (hnm ▸ rfl) with h1 | h2
      · exact absurd (hnm.trans h1) hempty
      · exact h2
  · intro hnone
    unfold dialSelectIface findIfaceName
    rw [findIface_outer_no_match ip ifaces "" hnone]
    rfl

/-- Witness for C8: interfaces eth0 (10.0.0.1) and eth1 (10.0.0.2),
with the resolved local IP on eth1. -/
theorem dial_selects_matching_iface_witness :
    dialSelectIface
        [PcapInterface.mk "eth0" [PcapAddress.mk 10], PcapInterface.mk "eth1" [PcapAddress.mk 20]]
        20 = Except.ok ((PcapInterface.mk "eth1" [PcapAddress.mk 20]).Name) ∧
    (∀ nm, dialSelectIface [PcapInterface.mk "eth0" [PcapAddress.mk 10]] 20 = Except.ok nm →
      ∃ i ∈ [PcapInterface.mk "eth0" [PcapAddress.mk 10]], i.Name = nm ∧
        ∃ a ∈ i.Addresses, a.IP = 20) ∧
    ((∀ i ∈ [PcapInterface.mk "eth0" [PcapAddress.mk 10]], ∀ a ∈ i.Addresses, a.IP ≠ 20) →
      dialSelectIface [PcapInterface.mk "eth0" [PcapAddress.mk 10]] 20 =
        Except.error ("cannot find correct interface")) :=
  dial_selects_matching_iface (PcapInterface.mk "eth0" [PcapAddress.mk 10])
    (PcapInterface.mk "eth1" [PcapAddress.mk 20]) 20
    [PcapInterface.mk "eth0" [PcapAddress.mk 10]]
    (by decide) (by decide) (by decide)

end Tcpraw
